import Mathlib

/-!
Verification of the four-stage DSCI-532 showcase pipeline
(`scripts/01-fetch_repos.py` … `scripts/04-generate_quarto_pages.py`).

Python strings are modelled as `List Char`; a nullable dataframe cell
(a value that may be pandas `NaN`) is modelled as `Option (List Char)`,
with `none` standing for `NaN`/missing.  All definitions are direct
transcriptions of the Python source; the few places where a library
behaviour (pandas, python-dotenv, requests) matters are modelled by its
documented default semantics and noted in the doc comment.
-/

namespace Dsci532

/-- Python `s.split(sep, 1)` on one separator character, in the form
`(part before the first sep, rest after it if the sep occurs)`:
`splitFirst c l = (pre, none)` when `c` does not occur in `l` (so that
Python's result list has a single element `pre = l`), and
`(pre, some post)` when `l = pre ++ [c] ++ post` with `c ∉ pre`. -/
def splitFirst (c : Char) : List Char → List Char × Option (List Char)
  | [] => ([], none)
  | x :: xs =>
    if x = c then ([], some xs)
    else
      let r := splitFirst c xs
      (x :: r.1, r.2)

/-- `parse_repo_name` from `scripts/02-parse_repos.py` (lines 25-52):
strip the prefix `pattern` from `repo_name` (returning `("", "")` when it
is not a prefix), then split the remainder on the first `_` into group
number and project name. -/
def parse_repo_name (repo_name : List Char)
    (pattern : List Char) : List Char × List Char :=
  if pattern.isPrefixOf repo_name then
    let remainder := repo_name.drop pattern.length
    match splitFirst '_' remainder with
    | (pre, none) => (pre, [])
    | (pre, some post) => (pre, post)
  else ([], [])

/-- The default prefix pattern `"DSCI-532_2026_"` used by the pipeline. -/
def defaultPattern : List Char := "DSCI-532_2026_".toList

/-- One row of the pipeline's tabular dataset (§3 RepositoryRecord).
Nullable cells are `Option (List Char)`, `none` standing for a pandas
`NaN`/missing value; the boolean column `private` is renamed
`privateFlag` because `private` is a Lean keyword. -/
structure Row where
  name : List Char
  full_name : List Char
  html_url : List Char
  description : Option (List Char)
  created_at : List Char
  updated_at : List Char
  privateFlag : Bool
  group_number : Option (List Char)
  project_name : Option (List Char)
  sketch_path : Option (List Char)
  deriving DecidableEq, Repr

/-- The per-row transform of `parse_repos_csv`
(`scripts/02-parse_repos.py` lines 69-74): recompute `group_number` and
`project_name` from the `name` column, overwriting the two columns. -/
def parseRow (r : Row) : Row :=
  let p := parse_repo_name r.name defaultPattern
  { r with group_number := some p.1, project_name := some p.2 }

/-- The dataframe transform of `parse_repos_csv`: `df["name"].apply(...)`
assigns the two derived columns row by row. -/
def parse_repos_csv (rows : List Row) : List Row :=
  rows.map parseRow

/-! ### Stage 1: credential resolution and CSV saving -/

/-- ASCII whitespace as stripped by Python `str.strip()` with no
argument (space, tab, newline, carriage return, vertical tab, form
feed; non-ASCII whitespace does not occur in the modelled inputs). -/
def isPySpace (c : Char) : Bool :=
  decide (c = ' ' ∨ c = '\t' ∨ c = '\n' ∨ c = '\r' ∨ c = '\x0b' ∨ c = '\x0c')

/-- Python `s.strip()`: drop leading and trailing whitespace. -/
def pyStrip (s : List Char) : List Char :=
  ((s.dropWhile isPySpace).reverse.dropWhile isPySpace).reverse

/-- The error raised at the end of `get_github_token`
(`scripts/01-fetch_repos.py` lines 45-48): a `ValueError` when every
source produced an empty token. -/
inductive TokenError where
  | noToken
  deriving DecidableEq, Repr

/-- `get_github_token` (`scripts/01-fetch_repos.py` lines 11-50).
The process environment gives `envToken`/`envPat` for the variables
`GITHUB_TOKEN`/`GITHUB_PAT` (`none` = unset, so `os.getenv(name, "")`
yields `""`); `fileToken`/`filePat` are the same two names as found in
the `.env` file.  `load_dotenv()` is modelled by its documented default
`override=False`: after loading, `os.getenv` sees the process value when
the variable was already set (even to blanks) and the file value
otherwise, i.e. `env <|> file`.  The interactive prompt yields
`promptInput`.  Each candidate is stripped; the first non-empty one is
returned; if all five are empty a `ValueError` is raised. -/
def get_github_token (envToken envPat fileToken filePat : Option (List Char))
    (promptInput : List Char) : Except TokenError (List Char) :=
  let t1 := pyStrip (envToken.getD [])
  if t1 ≠ [] then .ok t1 else
  let t2 := pyStrip (envPat.getD [])
  if t2 ≠ [] then .ok t2 else
  let t3 := pyStrip ((envToken <|> fileToken).getD [])
  if t3 ≠ [] then .ok t3 else
  let t4 := pyStrip ((envPat <|> filePat).getD [])
  if t4 ≠ [] then .ok t4 else
  let t5 := pyStrip promptInput
  if t5 ≠ [] then .ok t5 else .error .noToken

/-- First non-empty string in a list of candidates, `none` when all are
empty. -/
def firstNonEmpty : List (List Char) → Option (List Char)
  | [] => none
  | s :: rest => if s ≠ [] then some s else firstNonEmpty rest

/-- Credential resolution exactly as the specification words it
(§4.1/§6): primary environment variable, secondary environment variable,
then the same two names read from the local config file itself, then the
interactive prompt; the first non-empty (stripped) value wins.  This
definition follows the spec's words, to be compared with
`get_github_token`, which follows the source. -/
def resolveCredentialSpec (envToken envPat fileToken filePat : Option (List Char))
    (promptInput : List Char) : Except TokenError (List Char) :=
  match firstNonEmpty
      [pyStrip (envToken.getD []), pyStrip (envPat.getD []),
       pyStrip (fileToken.getD []), pyStrip (filePat.getD []),
       pyStrip promptInput] with
  | some t => .ok t
  | none => .error .noToken

/-- One repository dictionary as built by `fetch_ubc_mds_repos`
(`scripts/01-fetch_repos.py` lines 79-87); `private` renamed
`privateFlag` (Lean keyword). -/
structure RepoDict where
  name : List Char
  full_name : List Char
  html_url : List Char
  description : List Char
  created_at : List Char
  updated_at : List Char
  privateFlag : Bool
  deriving DecidableEq, Repr

/-- The CSV header written by `save_to_csv`
(`scripts/01-fetch_repos.py` lines 125-137). -/
def csvFieldnames : List (List Char) :=
  ["name".toList, "full_name".toList, "html_url".toList,
   "description".toList, "created_at".toList, "updated_at".toList,
   "private".toList]

/-- One CSV data row of `save_to_csv` (field values in header order;
the boolean serializes as Python `str(bool)` does). -/
def csvRowOf (r : RepoDict) : List (List Char) :=
  [r.name, r.full_name, r.html_url, r.description, r.created_at,
   r.updated_at, if r.privateFlag then "True".toList else "False".toList]

/-- `save_to_csv` (`scripts/01-fetch_repos.py` lines 113-140): with an
empty repo list it prints a message and returns before `open(filename,
"w")` is ever reached (`none` = no file written); otherwise it writes
the header row followed by one row per repository (`some contents`). -/
def save_to_csv (repos : List RepoDict) : Option (List (List (List Char))) :=
  if repos.isEmpty then none
  else some (csvFieldnames :: repos.map csvRowOf)

/-- Effect of an optional CSV write on a name-to-contents file-system
map: no write leaves every existing file untouched; a write replaces or
creates `filename`. -/
def applyWrite (fs : List (List Char × List (List (List Char))))
    (filename : List Char) (w : Option (List (List (List Char)))) :
    List (List Char × List (List (List Char))) :=
  match w with
  | none => fs
  | some c => (filename, c) :: fs.filter (fun e => ! (e.1 == filename))

/-- Output CSV filename used by `main` in `scripts/01-fetch_repos.py`. -/
def outputCsvName : List Char := "dsci_532_repos.csv".toList

/-- The write performed by `main` (`scripts/01-fetch_repos.py` lines
153-158): only when `repos` is non-empty does it create the data
directory and call `save_to_csv`; with zero matches the file system is
returned unchanged and the run still terminates normally. -/
def mainSaveEffect (fs : List (List Char × List (List (List Char))))
    (repos : List RepoDict) : List (List Char × List (List (List Char))) :=
  if repos.isEmpty then fs
  else applyWrite fs outputCsvName (save_to_csv repos)

/-! ### Stage 3: sketch download -/

/-- Outcome of one `requests.get(url, timeout=10)` call: a response
with a status code and body, a timeout, or another transport-level
failure (both exception cases are `requests.exceptions.RequestException`
subclasses, caught by the same handler in the source). -/
inductive HttpOutcome where
  | response (status : Nat) (body : List Char)
  | timeout
  | transportError
  deriving DecidableEq, Repr

/-- The payload accepted by `download_sketch`: the body when the call
returned a response with status exactly 200, `none` in every other case
(non-200 status, timeout, transport error). -/
def successBody : HttpOutcome → Option (List Char)
  | .response s body => if s = 200 then some body else none
  | _ => none

/-- Whether an outcome counts as a successful fetch for the source's
`response.status_code == 200` test. -/
def isSuccess (o : HttpOutcome) : Bool :=
  (successBody o).isSome

/-- The raw-content URL built in `download_sketch`
(`scripts/03-download_sketches.py` line 66). -/
def rawUrl (full_name branch : List Char) : List Char :=
  "https://raw.githubusercontent.com/".toList ++ full_name ++ "/".toList
    ++ branch ++ "/img/sketch.png".toList

/-- The fixed branch priority list (`scripts/03-download_sketches.py`
line 62): `main` first, `master` second. -/
def branches : List (List Char) :=
  ["main".toList, "master".toList]

/-- The saved file's path relative to the project root
(`scripts/03-download_sketches.py` line 79). -/
def sketchRelPath (group_number : List Char) : List Char :=
  "group_data/".toList ++ group_number ++ "/sketch.png".toList

/-- The loop of `download_sketch` (`scripts/03-download_sketches.py`
lines 65-85) over a branch candidate list.  Returns `(result, requested
URLs)`: on the first branch whose response has status 200 the payload is
saved and `(relative path, payload)` returned; a non-200 status, a
timeout or a transport error all fall through to the next candidate;
after the last candidate the result is `none` (Python `None`). -/
def tryBranches (fetch : List Char → HttpOutcome)
    (full_name group_number : List Char) :
    List (List Char) → Option (List Char × List Char) × List (List Char)
  | [] => (none, [])
  | b :: bs =>
    let url := rawUrl full_name b
    match successBody (fetch url) with
    | some body => (some (sketchRelPath group_number, body), [url])
    | none =>
      let r := tryBranches fetch full_name group_number bs
      (r.1, url :: r.2)

/-- `download_sketch` (`scripts/03-download_sketches.py` lines 43-85):
try the two candidate branches in priority order. -/
def download_sketch (fetch : List Char → HttpOutcome)
    (full_name group_number : List Char) :
    Option (List Char × List Char) × List (List Char) :=
  tryBranches fetch full_name group_number branches

/-- The uncaught exception of stage 3: `group_data_dir / group_number`
raises `TypeError` when `group_number` is a float (the pandas `NaN` of a
missing cell). -/
inductive PyErr where
  | typeError
  deriving DecidableEq, Repr

/-- Python truthiness of a dataframe cell as tested by
`if not group_number:` (`scripts/03-download_sketches.py` line 115): an
empty string is falsy, a non-empty string truthy — and a missing value
is TRUTHY, because the cell then holds the float `nan` and
`bool(nan) == True`. -/
def cellTruthy : Option (List Char) → Bool
  | none => true
  | some s => ! s.isEmpty

/-- The sketch path computed for one row by the loop of
`download_all_sketches` (`scripts/03-download_sketches.py` lines
109-124).  A falsy `group_number` (empty string) is skipped with path
`""`.  A missing value is NOT skipped (`nan` is truthy); the call to
`download_sketch` then evaluates `group_data_dir / group_number` with a
float and raises `TypeError` before any request is made.  A download
returning `None` is recorded as `""`. -/
def sketchPathForRow (fetch : List Char → HttpOutcome) (r : Row) :
    Except PyErr (List Char) :=
  if ! cellTruthy r.group_number then .ok []
  else
    match r.group_number with
    | none => .error .typeError
    | some g =>
      match (download_sketch fetch r.full_name g).1 with
      | some pb => .ok pb.1
      | none => .ok []

/-- URLs requested while processing one row: empty when the row is
skipped, and also empty in the missing-value case because the
`TypeError` occurs at path construction, before any request. -/
def callsForRow (fetch : List Char → HttpOutcome) (r : Row) :
    List (List Char) :=
  if ! cellTruthy r.group_number then []
  else
    match r.group_number with
    | none => []
    | some g => (download_sketch fetch r.full_name g).2

/-- `download_all_sketches` (`scripts/03-download_sketches.py` lines
88-144): process the rows in order, recording one sketch path per row
(the empty string when no asset was found) and adding the `sketch_path`
column; an uncaught exception aborts the whole stage. -/
def download_all_sketches (fetch : List Char → HttpOutcome) :
    List Row → Except PyErr (List Row)
  | [] => .ok []
  | r :: rest =>
    match sketchPathForRow fetch r with
    | .error e => .error e
    | .ok p =>
      match download_all_sketches fetch rest with
      | .error e => .error e
      | .ok rs => .ok ({ r with sketch_path := some p } :: rs)

/-! ### Stage 4: Quarto page generation -/

/-- Value of a decimal digit string (most significant first). -/
def digitsToNat (ds : List Char) : Nat :=
  ds.foldl (fun acc c => acc * 10 + (c.toNat - 48)) 0

/-- The decimal digit character for `d < 10`. -/
def digitChar (d : Nat) : Char := Char.ofNat (48 + d)

/-- Decimal rendering of a natural number, fuel-structured so that it
reduces in the kernel; `fuel = n + 1` always suffices. -/
def natToStringAux : Nat → Nat → List Char
  | 0, _ => []
  | fuel + 1, n =>
    if n < 10 then [digitChar n]
    else natToStringAux fuel (n / 10) ++ [digitChar (n % 10)]

/-- Python `str(n)` for a natural number. -/
def natToString (n : Nat) : List Char := natToStringAux (n + 1) n

/-- Python `str(n)` for an int. -/
def intToString (n : Int) : List Char :=
  if n < 0 then '-' :: natToString (-n).toNat else natToString n.toNat

/-- Truncation toward zero of `±(mant / 10^fl) · 10^e` — the value of a
parsed decimal literal with mantissa digits `mant`, `fl` fractional
digits and decimal exponent `e` — as `int(float(...))` computes it. -/
def truncScaled (neg : Bool) (mant fl : Nat) (e : Int) : Int :=
  let q : Nat :=
    if 0 ≤ e then mant * 10 ^ e.toNat / 10 ^ fl
    else mant / 10 ^ (fl + (-e).toNat)
  if neg then -(q : Int) else (q : Int)

/-- Exponent part of the decimal-literal grammar: `[+-]digits` followed
by nothing, else the whole parse fails. -/
def parseExpAnd (neg : Bool) (mant fl : Nat) (r : List Char) : Option Int :=
  let es :=
    match r with
    | '-' :: t => (true, t)
    | '+' :: t => (false, t)
    | t => (false, t)
  let ds := es.2.takeWhile Char.isDigit
  let rest := es.2.dropWhile Char.isDigit
  if ds = [] ∨ rest ≠ [] then none
  else
    some (truncScaled neg mant fl
      (if es.1 then -(digitsToNat ds : Int) else (digitsToNat ds : Int)))

/-- Model of Python `int(float(s))` as used by the numeric-group test in
`generate_all_pages` (`scripts/04-generate_quarto_pages.py` lines
134-138): parse `s` as a decimal literal `[+-]digits[.digits][e[+-]digits]`
(at least one digit before or after the dot) and truncate toward zero;
`none` models the `ValueError` caught by the `except` clause.  Inputs
outside this grammar (`inf`/`nan` spellings, embedded underscores,
surrounding whitespace) and float overflow/rounding at extreme
magnitudes are outside the model; no such group identifier occurs in
this pipeline's data. -/
def parsePyFloatTrunc (s : List Char) : Option Int :=
  let sr :=
    match s with
    | '-' :: r => (true, r)
    | '+' :: r => (false, r)
    | r => (false, r)
  let intPart := sr.2.takeWhile Char.isDigit
  let r1 := sr.2.dropWhile Char.isDigit
  let fr :=
    match r1 with
    | '.' :: r => (r.takeWhile Char.isDigit, r.dropWhile Char.isDigit)
    | r => ([], r)
  if intPart = [] ∧ fr.1 = [] then none
  else
    let mant := digitsToNat (intPart ++ fr.1)
    let fl := fr.1.length
    match fr.2 with
    | [] => some (truncScaled sr.1 mant fl 0)
    | 'e' :: r => parseExpAnd sr.1 mant fl r
    | 'E' :: r => parseExpAnd sr.1 mant fl r
    | _ => none

/-- Python string `<` (lexicographic by code point), the order used by
`non_numeric_groups.sort(key=lambda x: x[0])`. -/
def pyStrLt : List Char → List Char → Bool
  | [], [] => false
  | [], _ :: _ => true
  | _ :: _, [] => false
  | x :: xs, y :: ys =>
    if x.toNat < y.toNat then true
    else if y.toNat < x.toNat then false
    else pyStrLt xs ys

/-- Insert `x` into `l` before the first element strictly greater than
it (after all elements it does not strictly precede), preserving the
relative order of equal elements. -/
def insertSorted (lt : α → α → Bool) (x : α) : List α → List α
  | [] => [x]
  | y :: ys => if lt x y then x :: y :: ys else y :: insertSorted lt x ys

/-- Stable sort by a strict-order predicate, as Python's stable
`list.sort` behaves observationally. -/
def sortByLt (lt : α → α → Bool) (l : List α) : List α :=
  l.foldl (fun acc x => insertSorted lt x acc) []

/-- Python `sep.join(lines)`. -/
def joinSep (sep : List Char) : List (List Char) → List Char
  | [] => []
  | [x] => x
  | x :: y :: rest => x ++ sep ++ joinSep sep (y :: rest)

/-- The generated Quarto document, as the record of its frontmatter
fields plus its filename (`scripts/04-generate_quarto_pages.py` lines
88-98); the fixed boilerplate body line is common to every page. -/
structure Page where
  filename : List Char
  title : List Char
  subtitle : List Char
  descriptionBlock : List Char
  image : List Char
  order : Int
  deriving DecidableEq, Repr

/-- The fixed link-button line of the description block
(`scripts/04-generate_quarto_pages.py` line 82). -/
def linkButtonLine (html_url : List Char) : List Char :=
  "[Repo](".toList ++ html_url
    ++ ")\x7b.btn .btn-primary .btn-sm\x7d".toList

/-- The placeholder image URL used when no sketch is available
(`scripts/04-generate_quarto_pages.py` line 70). -/
def placeholderImage : List Char :=
  "https://via.placeholder.com/400x300?text=No+Sketch".toList

/-- The separator `"\n  "` of the YAML multiline description block. -/
def yamlIndentSep : List Char := "\n  ".toList

/-- `create_project_page` (`scripts/04-generate_quarto_pages.py` lines
40-102), as the page record written to `projects/group-<g>.qmd`.  Both
call sites normalize `NaN` cells to `""` before calling, so the string
arguments here are plain strings and the function's own
`description and pd.notna(description)` test reduces to an emptiness
test (`pd.notna` is true on every `str`). -/
def create_project_page (group_number project_name html_url description
    sketch_path : List Char) (sort_order : Int) : Page :=
  let image_path :=
    if ! sketch_path.isEmpty then "../".toList ++ sketch_path
    else placeholderImage
  let clean_description :=
    if ! description.isEmpty then description else []
  let desc_lines :=
    if ! clean_description.isEmpty then
      [clean_description, [], linkButtonLine html_url]
    else [linkButtonLine html_url]
  { filename := "group-".toList ++ group_number ++ ".qmd".toList
    title := "Group ".toList ++ group_number
    subtitle := project_name
    descriptionBlock := joinSep yamlIndentSep desc_lines
    image := image_path
    order := sort_order }

/-- `row[field] if pd.notna(row[field]) else ""`, the normalization
applied to `project_name`, `description` and `sketch_path` in
`generate_all_pages` (also covering an absent `sketch_path` column). -/
def cellStr (c : Option (List Char)) : List Char := c.getD []

/-- Classification of one row by the first pass of `generate_all_pages`
(`scripts/04-generate_quarto_pages.py` lines 126-166): skipped (empty or
`NaN` group number), numeric (page emitted immediately, its group string
normalized through `str(int(float(g)))` and `sort_order` the truncated
integer), or deferred to the second pass with its raw group string. -/
inductive RowClass where
  | skip
  | numericPage (p : Page)
  | deferred (g : List Char) (r : Row)
  deriving DecidableEq, Repr

def classifyRow (r : Row) : RowClass :=
  match r.group_number with
  | none => .skip
  | some g =>
    if g.isEmpty then .skip
    else
      match parsePyFloatTrunc g with
      | some n =>
        .numericPage (create_project_page (intToString n)
          (cellStr r.project_name) r.html_url (cellStr r.description)
          (cellStr r.sketch_path) n)
      | none => .deferred g r

/-- The page built for the `i`-th (0-based) entry of the sorted
non-numeric list in the second pass (`scripts/04-generate_quarto_pages.py`
lines 172-199): raw group string, `sort_order = 9000 + i`. -/
def deferredPage (i : Nat) (gr : List Char × Row) : Page :=
  create_project_page gr.1 (cellStr gr.2.project_name) gr.2.html_url
    (cellStr gr.2.description) (cellStr gr.2.sketch_path) (9000 + (i : Int))

/-- One step of the first-pass loop: emit a numeric page, defer a
non-numeric group, or skip. -/
def generateStep (acc : List Page × List (List Char × Row)) (r : Row) :
    List Page × List (List Char × Row) :=
  match classifyRow r with
  | .skip => acc
  | .numericPage p => (acc.1 ++ [p], acc.2)
  | .deferred g row => (acc.1, acc.2 ++ [(g, row)])

/-- `generate_all_pages` (`scripts/04-generate_quarto_pages.py` lines
105-206): first pass emits numeric pages in input order and collects the
non-numeric groups; the second pass sorts those by the raw group string
and emits them with `sort_order = 9000 + position`. -/
def generate_all_pages (rows : List Row) : List Page :=
  let fp := rows.foldl generateStep ([], [])
  let sortedNN := sortByLt (fun a b => pyStrLt a.1 b.1) fp.2
  fp.1 ++ sortedNN.enum.map (fun p => deferredPage p.1 p.2)

/-- The numeric-pass page of a row, when it has one. -/
def numericPageOf (r : Row) : Option Page :=
  match classifyRow r with
  | .numericPage p => some p
  | _ => none

/-- The deferred entry of a row, when it has one. -/
def deferredEntryOf (r : Row) : Option (List Char × Row) :=
  match classifyRow r with
  | .deferred g row => some (g, row)
  | _ => none

/-- The group string actually embedded in a page's filename and title:
the normalized integer string for a numeric group, the raw string for a
non-numeric one. -/
def emittedGroup (g : List Char) : List Char :=
  match parsePyFloatTrunc g with
  | some n => intToString n
  | none => g

/-! ### Concrete fixtures used by witnesses and counterexamples -/

/-- A typical dataset row used as the base of concrete instances. -/
def baseRow : Row :=
  { name := "DSCI-532_2026_1_demo".toList
    full_name := "UBC-MDS/DSCI-532_2026_1_demo".toList
    html_url := "https://github.com/UBC-MDS/DSCI-532_2026_1_demo".toList
    description := none
    created_at := []
    updated_at := []
    privateFlag := false
    group_number := some "1".toList
    project_name := some "demo".toList
    sketch_path := none }

/-- The sort-ordering fixture of §8: numeric groups 3, 10, 2 and
non-numeric groups b, a (input order). -/
def exampleOrderRows : List Row :=
  [{ baseRow with group_number := some "3".toList },
   { baseRow with group_number := some "10".toList },
   { baseRow with group_number := some "2".toList },
   { baseRow with group_number := some "b".toList },
   { baseRow with group_number := some "a".toList }]

/-- A network oracle whose `main` branch times out and whose `master`
branch answers 200 with body `PNG`. -/
def demoFetch : List Char → HttpOutcome := fun url =>
  if url = rawUrl "UBC-MDS/demo".toList "master".toList then
    .response 200 "PNG".toList
  else .timeout

/-! ## Theorems -/

lemma splitFirst_eq (c : Char) (l : List Char) :
    splitFirst c l =
      (l.takeWhile (fun x => x != c),
       if c ∈ l then some ((l.dropWhile (fun x => x != c)).tail)
       else none) := by
  induction l with
  | nil => simp [splitFirst]
  | cons x xs ih =>
    by_cases hx : x = c
    · subst hx
      simp [splitFirst, List.takeWhile, List.dropWhile]
    · have hb : (x == c) = false := beq_eq_false_iff_ne.mpr hx
      have hcx : ¬ c = x := fun h => hx h.symm
      simp [splitFirst, ih, List.takeWhile, List.dropWhile, hb, hcx, bne, hx]

/-- C1: `parse` returns `("", "")` when `name` does not start with
`pattern`; otherwise it takes the remainder after the prefix and splits
on the first `_`, returning `(remainder, "")` when the remainder has no
`_` and (part before the first `_`, part after it with further `_` left
intact) otherwise; in particular the three concrete examples of the
spec hold. -/
theorem parse_repo_name_spec :
    (∀ name pattern : List Char,
        parse_repo_name name pattern =
          if pattern.isPrefixOf name then
            if '_' ∈ name.drop pattern.length then
              ((name.drop pattern.length).takeWhile (fun x => x != '_'),
               ((name.drop pattern.length).dropWhile (fun x => x != '_')).tail)
            else (name.drop pattern.length, [])
          else ([], []))
    ∧ parse_repo_name "DSCI-532_2026_12_my-project".toList defaultPattern
        = ("12".toList, "my-project".toList)
    ∧ parse_repo_name "DSCI-532_2026_7".toList defaultPattern
        = ("7".toList, [])
    ∧ parse_repo_name "unrelated-repo".toList defaultPattern = ([], []) := by
  refine ⟨fun name pattern => ?_, by decide, by decide, by decide⟩
  cases hp : pattern.isPrefixOf name with
  | false => simp [parse_repo_name, hp]
  | true =>
    by_cases hc : '_' ∈ name.drop pattern.length
    · simp [parse_repo_name, hp, splitFirst_eq, hc]
    · simp [parse_repo_name, hp, splitFirst_eq, hc]
      exact fun x hx h => hc (h ▸ hx)

/-- C9: `parse` is pure and total — for every pair of input strings it
returns a pair of strings (it is a total function), and on the edge
cases of a name equal to the bare pattern or an empty name it returns
`("", "")`. -/
theorem parse_repo_name_total :
    (∀ name pattern : List Char,
        ∃ out : List Char × List Char, parse_repo_name name pattern = out)
    ∧ (∀ pattern : List Char, parse_repo_name pattern pattern = ([], []))
    ∧ (∀ pattern : List Char, parse_repo_name [] pattern = ([], [])) := by
  refine ⟨fun name pattern => ⟨_, rfl⟩, fun pattern => ?_, fun pattern => ?_⟩
  · have hp : pattern.isPrefixOf pattern = true :=
      List.isPrefixOf_iff_prefix.mpr (List.prefix_refl pattern)
    simp [parse_repo_name, hp, List.drop_length, splitFirst]
  · cases pattern <;> rfl

/-- C8: name decomposition is idempotent — re-running the stage-2
transform on already-decomposed rows rewrites `group_number` and
`project_name` with the same values, because both are recomputed from
the unchanged `name` column, row by row independently. -/
theorem parse_repos_csv_idempotent :
    (∀ rows : List Row,
        parse_repos_csv (parse_repos_csv rows) = parse_repos_csv rows)
    ∧ (∀ (r : Row) (rest : List Row),
        parse_repos_csv (r :: rest) = parseRow r :: parse_repos_csv rest) := by
  have hrow : ∀ r : Row, parseRow (parseRow r) = parseRow r := fun r => rfl
  refine ⟨fun rows => ?_, fun r rest => rfl⟩
  simp [parse_repos_csv, List.map_map, Function.comp_def, hrow]

/-- C6 (counterexample): the claim "the config-file values of the two
names are tried after the environment values, first non-empty wins, and
the function errors iff all sources are empty" fails on the code.  With
`GITHUB_TOKEN` set to blanks in the environment and to `sometoken` in
the `.env` file (all other sources empty), the config-file source is
non-empty, and resolution as the spec words it returns `sometoken` —
but `load_dotenv()` does not override a variable already present in the
environment, so the code re-reads the blank value and raises. -/
theorem get_github_token_counterexample :
    get_github_token (some "   ".toList) none (some "sometoken".toList)
        none [] = .error .noToken
    ∧ resolveCredentialSpec (some "   ".toList) none
        (some "sometoken".toList) none [] = .ok "sometoken".toList
    ∧ pyStrip "sometoken".toList ≠ [] := by
  exact ⟨rfl, rfl, by decide⟩

/-- C6 (amended): credential resolution tries, in order, the primary and
secondary environment variables and then the same two names as seen
AFTER loading the config file without overriding variables already
present in the environment (so a set-but-blank environment variable
shadows the file's value), then the interactive prompt; the first
non-empty stripped value wins, and the function errors iff all five
candidates are empty. -/
theorem get_github_token_resolution :
    (∀ (envToken envPat fileToken filePat : Option (List Char))
        (promptInput : List Char),
        get_github_token envToken envPat fileToken filePat promptInput =
          match firstNonEmpty
              [pyStrip (envToken.getD []), pyStrip (envPat.getD []),
               pyStrip ((envToken <|> fileToken).getD []),
               pyStrip ((envPat <|> filePat).getD []),
               pyStrip promptInput] with
          | some t => .ok t
          | none => .error .noToken)
    ∧ (∀ l : List (List Char),
        firstNonEmpty l = none ↔ l.all List.isEmpty = true) := by
  constructor
  · intro e1 e2 f1 f2 p
    simp only [get_github_token, firstNonEmpty]
    split_ifs <;> rfl
  · intro l
    induction l with
    | nil => simp [firstNonEmpty]
    | cons s rest ih =>
      by_cases hs : s = []
      · simp [firstNonEmpty, hs, ih]
      · simp [firstNonEmpty, hs, List.isEmpty_iff]

/-- C10: when repository discovery finds zero matches, no output file is
written at all — `save_to_csv` returns before opening the file, any
pre-existing file is left untouched, and `main`'s own guard also skips
the write — and the run terminates normally. -/
theorem no_repos_no_csv_write :
    save_to_csv [] = none
    ∧ (∀ (fs : List (List Char × List (List (List Char))))
        (filename : List Char), applyWrite fs filename (save_to_csv []) = fs)
    ∧ (∀ fs, mainSaveEffect fs [] = fs) :=
  ⟨rfl, fun _ _ => rfl, fun _ => rfl⟩

lemma successBody_eq_none {o : HttpOutcome} (h : isSuccess o = false) :
    successBody o = none := by
  cases hs : successBody o with
  | none => rfl
  | some b => rw [isSuccess, hs] at h; simp at h

lemma tryBranches_cons_fail (fetch : List Char → HttpOutcome)
    (fn g b : List Char) (bs : List (List Char))
    (h : successBody (fetch (rawUrl fn b)) = none) :
    tryBranches fetch fn g (b :: bs) =
      ((tryBranches fetch fn g bs).1,
       rawUrl fn b :: (tryBranches fetch fn g bs).2) := by
  simp [tryBranches, h]

lemma tryBranches_cons_ok (fetch : List Char → HttpOutcome)
    (fn g b : List Char) (bs : List (List Char)) (body : List Char)
    (h : successBody (fetch (rawUrl fn b)) = some body) :
    tryBranches fetch fn g (b :: bs) =
      (some (sketchRelPath g, body), [rawUrl fn b]) := by
  simp [tryBranches, h]

/-- C3: asset retrieval tries `main` then `master` in fixed order; a
non-success status, timeout or transport error on `main` falls through
to `master`, whose payload is then saved and its path returned; when
both candidates fail the row's `sketch_path` is recorded as the empty
string and the stage continues with the remaining rows instead of
raising. -/
theorem sketch_branch_fallback :
    (∀ (fetch : List Char → HttpOutcome) (fn g body : List Char),
        isSuccess (fetch (rawUrl fn "main".toList)) = false →
        fetch (rawUrl fn "master".toList) = .response 200 body →
        download_sketch fetch fn g =
          (some (sketchRelPath g, body),
           [rawUrl fn "main".toList, rawUrl fn "master".toList]))
    ∧ (∀ (fetch : List Char → HttpOutcome) (r : Row) (rest : List Row)
        (g : List Char),
        r.group_number = some g → g.isEmpty = false →
        isSuccess (fetch (rawUrl r.full_name "main".toList)) = false →
        isSuccess (fetch (rawUrl r.full_name "master".toList)) = false →
        download_all_sketches fetch (r :: rest) =
          (download_all_sketches fetch rest).map
            (fun rs => { r with sketch_path := some [] } :: rs)) := by
  constructor
  · intro fetch fn g body h1 h2
    have h2b : successBody (fetch (rawUrl fn "master".toList)) = some body := by
      rw [h2]; rfl
    rw [download_sketch, branches, tryBranches_cons_fail fetch fn g _ _
      (successBody_eq_none h1), tryBranches_cons_ok fetch fn g _ _ body h2b]
  · intro fetch r rest g hg hge h1 h2
    have hd : (download_sketch fetch r.full_name g).1 = none := by
      rw [download_sketch, branches, tryBranches_cons_fail fetch _ g _ _
        (successBody_eq_none h1), tryBranches_cons_fail fetch _ g _ _
        (successBody_eq_none h2)]
      rfl
    have hrow : sketchPathForRow fetch r = .ok [] := by
      simp [sketchPathForRow, hg, cellTruthy, hge, hd]
    simp only [download_all_sketches, hrow]
    cases hres : download_all_sketches fetch rest <;> simp [Except.map, hres]

/-- Witness for C3 at concrete inputs: `demoFetch` times out on `main`
and answers 200 on `master`, so the payload `PNG` is saved under the
group directory; an always-failing oracle records the empty path and the
stage returns normally. -/
theorem sketch_branch_fallback_witness :
    download_sketch demoFetch "UBC-MDS/demo".toList "9".toList =
      (some (sketchRelPath "9".toList, "PNG".toList),
       [rawUrl "UBC-MDS/demo".toList "main".toList,
        rawUrl "UBC-MDS/demo".toList "master".toList])
    ∧ download_all_sketches (fun _ => HttpOutcome.timeout)
        [{ baseRow with group_number := some "9".toList }] =
      .ok [{ baseRow with
              group_number := some "9".toList
              sketch_path := some [] }] := by
  constructor
  · exact sketch_branch_fallback.1 demoFetch "UBC-MDS/demo".toList
      "9".toList "PNG".toList (by decide) (by decide)
  · rw [sketch_branch_fallback.2 (fun _ => HttpOutcome.timeout)
      { baseRow with group_number := some "9".toList } [] "9".toList rfl
      (by decide) (by decide) (by decide)]
    rfl

/-- C5: the claim says a record with empty OR MISSING `group_number` is
skipped without a network call and recorded with `sketch_path = ""`.
The empty-string case behaves as claimed (first two conjuncts of the
missing-group half are about it), but a MISSING value is the float
`nan` in the dataframe, which is truthy, so the guard does not skip it:
`download_sketch` is entered and `group_data_dir / group_number` raises
`TypeError` before any request — the stage aborts instead of recording
the empty path.  This theorem evaluates the model at the failing input
(a row whose `group_number` cell is missing) and at the empty-string
input. -/
theorem missing_group_not_skipped :
    download_all_sketches (fun _ => HttpOutcome.timeout)
        [{ baseRow with group_number := none }] = .error .typeError
    ∧ callsForRow (fun _ => HttpOutcome.timeout)
        { baseRow with group_number := none } = []
    ∧ download_all_sketches (fun _ => HttpOutcome.timeout)
        [{ baseRow with group_number := some [] }] =
      .ok [{ baseRow with
              group_number := some []
              sketch_path := some [] }]
    ∧ callsForRow (fun _ => HttpOutcome.timeout)
        { baseRow with group_number := some [] } = [] :=
  ⟨rfl, rfl, rfl, rfl⟩

lemma generate_foldl_eq (rows : List Row)
    (acc : List Page × List (List Char × Row)) :
    rows.foldl generateStep acc =
      (acc.1 ++ rows.filterMap numericPageOf,
       acc.2 ++ rows.filterMap deferredEntryOf) := by
  induction rows generalizing acc with
  | nil => simp
  | cons r rest ih =>
    rw [List.foldl_cons, ih]
    cases h : classifyRow r <;>
      simp [generateStep, numericPageOf, deferredEntryOf, h]

/-- C2: page generation classifies each non-skipped row by
`int(float(group_number))`: numeric rows produce their page in the first
pass with `sort_order` equal to the truncated integer, non-numeric rows
are deferred, sorted by their raw group string and given
`sort_order = 9000 + position` (0-based); on the fixture with numeric
groups 3, 10, 2 and non-numeric groups b, a the pages ordered by
`sort_order` are 2, 3, 10, a(9000), b(9001). -/
theorem generate_sort_order :
    (∀ rows : List Row,
        generate_all_pages rows =
          rows.filterMap numericPageOf ++
            (sortByLt (fun a b => pyStrLt a.1 b.1)
                (rows.filterMap deferredEntryOf)).enum.map
              (fun p => deferredPage p.1 p.2))
    ∧ ((sortByLt (fun p q : Page => decide (p.order < q.order))
          (generate_all_pages exampleOrderRows)).map
            (fun p => (p.title, p.order)) =
        [("Group 2".toList, 2), ("Group 3".toList, 3),
         ("Group 10".toList, 10), ("Group a".toList, 9000),
         ("Group b".toList, 9001)])
    ∧ (∀ (r : Row) (g : List Char) (n : Int),
        r.group_number = some g → g.isEmpty = false →
        parsePyFloatTrunc g = some n →
        (numericPageOf r).map Page.order = some n) := by
  refine ⟨fun rows => ?_, by decide, fun r g n hg hge hn => ?_⟩
  · rw [generate_all_pages, generate_foldl_eq]
    simp
  · simp [numericPageOf, classifyRow, hg, hge, hn, create_project_page]

/-- Witness for C2's numeric classification at a concrete input: the
group string `3.9` float-parses and truncates to 3, which becomes the
page's sort order. -/
theorem generate_sort_order_witness :
    (numericPageOf { baseRow with group_number := some "3.9".toList }).map
        Page.order = some 3 :=
  generate_sort_order.2.2 { baseRow with group_number := some "3.9".toList }
    "3.9".toList 3 rfl (by decide) (by decide)

/-- C4 (counterexample): the claim says the page file and title carry
the `group_number` exactly as stored in the dataset, e.g. `007` stays
`007`.  On the code, a numeric group string is normalized through
`str(int(float(...)))` before it reaches the filename and title, so the
record with `group_number = "007"` yields `group-7.qmd` / `Group 7`,
not `group-007.qmd` / `Group 007`. -/
theorem page_group_string_counterexample :
    (generate_all_pages
        [{ baseRow with group_number := some "007".toList }]).map
        (fun p => (p.filename, p.title)) =
      [("group-7.qmd".toList, "Group 7".toList)]
    ∧ (generate_all_pages
        [{ baseRow with group_number := some "007".toList }]).map
        (fun p => (p.filename, p.title)) ≠
      [("group-007.qmd".toList, "Group 007".toList)] :=
  ⟨by decide, by decide⟩

/-- C4 (amended): each generated page is named `group-<g>.qmd` with
title `Group <g>`, where `<g>` is the raw stored `group_number` for a
non-numeric group but the normalized integer string
`str(int(float(group_number)))` for a numeric one (so `007` and `3.9`
both emit `7` resp. `3`, not the stored text). -/
theorem page_filename_title_amended :
    ∀ (r : Row) (g : List Char), r.group_number = some g →
      g.isEmpty = false →
      (generate_all_pages [r]).map (fun p => (p.filename, p.title)) =
        [("group-".toList ++ emittedGroup g ++ ".qmd".toList,
          "Group ".toList ++ emittedGroup g)] := by
  intro r g hg hge
  cases hn : parsePyFloatTrunc g with
  | some n =>
    simp [generate_all_pages, generateStep, classifyRow, hg, hge, hn,
      sortByLt, emittedGroup, create_project_page]
  | none =>
    simp [generate_all_pages, generateStep, classifyRow, hg, hge, hn,
      sortByLt, insertSorted, deferredPage, emittedGroup,
      create_project_page]

/-- Witness for C4's amended claim at a concrete numeric input. -/
theorem page_filename_title_amended_witness :
    (generate_all_pages
        [{ baseRow with group_number := some "12".toList }]).map
        (fun p => (p.filename, p.title)) =
      [("group-".toList ++ emittedGroup "12".toList ++ ".qmd".toList,
        "Group ".toList ++ emittedGroup "12".toList)] :=
  page_filename_title_amended
    { baseRow with group_number := some "12".toList } "12".toList rfl
    (by decide)

/-- C7: a record with an absent description produces a description
block that is exactly the link-button line (no leading blank content),
and the missing textual fields `description`, `project_name` and
`sketch_path` are normalized to empty strings — the page shows an empty
subtitle and the placeholder image, never a `null`/`NaN` token. -/
theorem missing_fields_normalized :
    (∀ (g pn url sp : List Char) (o : Int),
        (create_project_page g pn url [] sp o).descriptionBlock =
          linkButtonLine url)
    ∧ (∀ (r : Row) (g : List Char), r.group_number = some g →
        g.isEmpty = false → r.description = none → r.project_name = none →
        r.sketch_path = none →
        (generate_all_pages [r]).map
            (fun p => (p.subtitle, p.descriptionBlock, p.image)) =
          [([], linkButtonLine r.html_url, placeholderImage)]) := by
  refine ⟨fun g pn url sp o => rfl, fun r g hg hge hd hpn hsp => ?_⟩
  cases hn : parsePyFloatTrunc g with
  | some n =>
    simp [generate_all_pages, generateStep, classifyRow, hg, hge, hn, hd,
      hpn, hsp, cellStr, sortByLt, create_project_page, joinSep]
  | none =>
    simp [generate_all_pages, generateStep, classifyRow, hg, hge, hn, hd,
      hpn, hsp, cellStr, sortByLt, insertSorted, deferredPage,
      create_project_page, joinSep]

/-- Witness for C7 at a concrete input: a row with group `5` and all
three textual fields missing. -/
theorem missing_fields_normalized_witness :
    (generate_all_pages
        [{ baseRow with
            group_number := some "5".toList
            project_name := none
            description := none
            sketch_path := none }]).map
        (fun p => (p.subtitle, p.descriptionBlock, p.image)) =
      [([], linkButtonLine baseRow.html_url, placeholderImage)] :=
  missing_fields_normalized.2
    { baseRow with
        group_number := some "5".toList
        project_name := none
        description := none
        sketch_path := none }
    "5".toList rfl (by decide) rfl rfl rfl

end Dsci532

